import Mathlib

/-!
Verification development for the cytometry-analysis pipeline
(`src/database.py`, `src/analysis.py`).

The SQLite store is embedded as a record of five tables (lists of typed
rows).  SQL `NULL` is `Option.none`; `TEXT` is `String`; `INTEGER` is `Int`.
Statement-level constraint checking (primary keys, foreign keys, `CHECK`
clauses with SQLite's three-valued logic) is modelled explicitly, because
several claims are about constraint behaviour.  Percentages are exact
rationals; a float `NaN`/non-finite value (division by a zero total) is
modelled as `Option.none`.  The library statistical routines
(`scipy.stats.mannwhitneyu`, `scipy.stats.norm.ppf`) are parameters of the
embedding, and float-valued statistics live in `ℝ`.
-/

/-- `uniqueFirstAux seen l` drops every element of `l` already seen,
keeping first occurrences (the semantics of `pandas.unique` /
`drop_duplicates(keep='first')`). -/
def uniqueFirstAux {α : Type} [DecidableEq α] (seen : List α) : List α → List α
  | [] => []
  | a :: l => if a ∈ seen then uniqueFirstAux seen l else a :: uniqueFirstAux (a :: seen) l

/-- First-occurrence deduplication, as performed by `pandas` `unique` and
`drop_duplicates`. -/
def uniqueFirst {α : Type} [DecidableEq α] (l : List α) : List α :=
  uniqueFirstAux [] l

/-! ## Data model: the five tables of `create_schema` -/

/-- Row of the `projects` table (`created_date` takes the SQL default and is
never read by the analyses, so it is omitted). -/
structure ProjectRow where
  project_id : String
  project_name : String
  description : String
  deriving DecidableEq, Repr

/-- Row of the `subjects` table.  Nullable columns are `Option`. -/
structure SubjectRow where
  subject_id : String
  project_id : Option String
  condition : String
  age : Int
  sex : Option String
  treatment : String
  response : Option String
  deriving DecidableEq, Repr

/-- Row of the `samples` table (`collection_date` is never supplied by the
loader nor read by the analyses, so it is omitted). -/
structure SampleRow where
  sample_id : String
  subject_id : String
  sample_type : String
  time_from_treatment_start : Int
  deriving DecidableEq, Repr

/-- Row of the `cell_populations` reference table. -/
structure PopulationRow where
  population_id : String
  population_name : String
  description : String
  deriving DecidableEq, Repr

/-- Row of the `cell_counts` table. -/
structure CellCountRow where
  sample_id : String
  population_id : String
  count : Int
  deriving DecidableEq, Repr

/-- The store: one list per table, in insertion order. -/
structure DB where
  projects : List ProjectRow
  subjects : List SubjectRow
  samples : List SampleRow
  cell_populations : List PopulationRow
  cell_counts : List CellCountRow
  deriving DecidableEq, Repr

/-- The fixed reference rows of `initialize_cell_populations`. -/
def initialPopulations : List PopulationRow :=
  [⟨"b_cell", "B Cell", "B lymphocytes"⟩,
   ⟨"cd8_t_cell", "CD8+ T Cell", "Cytotoxic T lymphocytes"⟩,
   ⟨"cd4_t_cell", "CD4+ T Cell", "Helper T lymphocytes"⟩,
   ⟨"nk_cell", "NK Cell", "Natural killer cells"⟩,
   ⟨"monocyte", "Monocyte", "Monocytes/macrophages"⟩]

/-- A freshly created store: `create_schema` on an empty database file. -/
def freshDB : DB :=
  ⟨[], [], [], initialPopulations, []⟩

/-! ## SQLite constraint semantics -/

/-- Error taxonomy of the loader/store layer (spec §7). -/
inductive LoadErr where
  | fileNotFound
  | schemaValidation
  | parseError
  | constraintViolation
  deriving DecidableEq, Repr

/-- SQLite three-valued evaluation of `x IN (list)`: `some true` if some
element equals `x`; `none` (SQL NULL) if `x` is NULL or no element matches
but a NULL is present in the list; `some false` otherwise. -/
def sqlIn (x : Option String) (ys : List (Option String)) : Option Bool :=
  match x with
  | none => none
  | some v =>
    if (some v) ∈ ys then some true
    else if none ∈ ys then none
    else some false

/-- A SQLite `CHECK` constraint passes unless its expression evaluates to
false (a NULL result passes). -/
def checkPasses (c : Option Bool) : Bool :=
  c ≠ some false

/-- The `CHECK (sex IN ('M', 'F'))` clause on `subjects`. -/
def sexCheck (s : SubjectRow) : Bool :=
  checkPasses (sqlIn s.sex [some "M", some "F"])

/-- The `CHECK (response IN ('yes', 'no', NULL))` clause on `subjects`.
Note the literal `NULL` inside the `IN` list: whenever the value matches no
listed literal the comparison with `NULL` makes the whole expression
`NULL`, which a `CHECK` treats as a pass. -/
def responseCheck (s : SubjectRow) : Bool :=
  checkPasses (sqlIn s.response [some "yes", some "no", none])

/-- SQLite foreign-key semantics: a NULL child value always passes;
otherwise the referenced key must exist. -/
def fkOk (x : Option String) (keys : List String) : Bool :=
  match x with
  | none => true
  | some v => decide (v ∈ keys)

/-- One `INSERT` into `projects` on a connection with
`PRAGMA foreign_keys = ON`: primary-key uniqueness on `project_id`. -/
def insertProject (db : DB) (p : ProjectRow) : Except LoadErr DB :=
  if db.projects.any (fun q => decide (q.project_id = p.project_id)) then
    .error .constraintViolation
  else
    .ok { db with projects := db.projects ++ [p] }

/-- One `INSERT` into `subjects`: primary key on `subject_id`, the two
`CHECK` clauses, and the foreign key to `projects`. -/
def insertSubject (db : DB) (s : SubjectRow) : Except LoadErr DB :=
  if db.subjects.any (fun t => decide (t.subject_id = s.subject_id)) then
    .error .constraintViolation
  else if ¬ sexCheck s then .error .constraintViolation
  else if ¬ responseCheck s then .error .constraintViolation
  else if ¬ fkOk s.project_id (db.projects.map (·.project_id)) then
    .error .constraintViolation
  else
    .ok { db with subjects := db.subjects ++ [s] }

/-- One `INSERT` into `samples`: primary key on `sample_id` and the foreign
key to `subjects`. -/
def insertSample (db : DB) (s : SampleRow) : Except LoadErr DB :=
  if db.samples.any (fun t => decide (t.sample_id = s.sample_id)) then
    .error .constraintViolation
  else if ¬ fkOk (some s.subject_id) (db.subjects.map (·.subject_id)) then
    .error .constraintViolation
  else
    .ok { db with samples := db.samples ++ [s] }

/-- One `INSERT` into `cell_counts`: composite primary key
`(sample_id, population_id)` and the foreign keys to `samples` and
`cell_populations`. -/
def insertCellCount (db : DB) (c : CellCountRow) : Except LoadErr DB :=
  if db.cell_counts.any
      (fun d => decide (d.sample_id = c.sample_id ∧ d.population_id = c.population_id)) then
    .error .constraintViolation
  else if ¬ fkOk (some c.sample_id) (db.samples.map (·.sample_id)) then
    .error .constraintViolation
  else if ¬ fkOk (some c.population_id) (db.cell_populations.map (·.population_id)) then
    .error .constraintViolation
  else
    .ok { db with cell_counts := db.cell_counts ++ [c] }

/-- Row-by-row insertion, aborting at the first constraint violation (the
behaviour of `DataFrame.to_sql(if_exists='append')` inside one
transaction: on error nothing of the call is committed). -/
def insertAll {ρ : Type} (ins : DB → ρ → Except LoadErr DB) :
    DB → List ρ → Except LoadErr DB
  | db, [] => .ok db
  | db, r :: l =>
    match ins db r with
    | .error e => .error e
    | .ok db1 => insertAll ins db1 l

/-! ## The Loader (`load_data_from_csv`) -/

/-- One parsed row of the input CSV.  The typed structure has all fifteen
required columns by construction, so the column-presence validation of
`load_data_from_csv` is vacuously satisfied; file-system and parse errors
are outside this model.  `sex` and `response` may be missing in the file
(pandas `NaN`, stored as SQL NULL). -/
structure CsvRow where
  project : String
  subject : String
  condition : String
  age : Int
  sex : Option String
  treatment : String
  response : Option String
  sample : String
  sample_type : String
  time_from_treatment_start : Int
  b_cell : Int
  cd8_t_cell : Int
  cd4_t_cell : Int
  nk_cell : Int
  monocyte : Int
  deriving DecidableEq, Repr

/-- `DELETE FROM cell_counts / samples / subjects / projects` — the clear
step of the loader.  The `cell_populations` reference table is untouched. -/
def clearTables (db : DB) : DB :=
  { projects := [], subjects := [], samples := [],
    cell_populations := db.cell_populations, cell_counts := [] }

/-- The subjects-frame row built from one CSV row
(`df[['subject','project','condition','age','sex','treatment','response']]`
renamed). -/
def toSubjectRow (r : CsvRow) : SubjectRow :=
  ⟨r.subject, some r.project, r.condition, r.age, r.sex, r.treatment, r.response⟩

/-- The samples-frame row built from one CSV row. -/
def toSampleRow (r : CsvRow) : SampleRow :=
  ⟨r.sample, r.subject, r.sample_type, r.time_from_treatment_start⟩

/-- The five normalized `cell_counts` rows exploded from one wide CSV row. -/
def toCellCountRows (r : CsvRow) : List CellCountRow :=
  [⟨r.sample, "b_cell", r.b_cell⟩,
   ⟨r.sample, "cd8_t_cell", r.cd8_t_cell⟩,
   ⟨r.sample, "cd4_t_cell", r.cd4_t_cell⟩,
   ⟨r.sample, "nk_cell", r.nk_cell⟩,
   ⟨r.sample, "monocyte", r.monocyte⟩]

/-- The distinct-projects frame (`df[['project']].drop_duplicates()` with
the constant name/description columns added). -/
def projectRows (rows : List CsvRow) : List ProjectRow :=
  (uniqueFirst (rows.map (·.project))).map
    fun p => ⟨p, p, "Cytometry analysis project"⟩

/-- The insert pipeline of `load_data_from_csv` after the clear step:
distinct projects, `drop_duplicates` subjects (first occurrence of each
full seven-column combination), one sample per row, five cell-count rows
per row, inserted in dependency order; the first constraint violation
aborts the load. -/
def loadInto (db : DB) (rows : List CsvRow) : Except LoadErr DB :=
  match insertAll insertProject db (projectRows rows) with
  | .error e => .error e
  | .ok db1 =>
    match insertAll insertSubject db1 (uniqueFirst (rows.map toSubjectRow)) with
    | .error e => .error e
    | .ok db2 =>
      match insertAll insertSample db2 (rows.map toSampleRow) with
      | .error e => .error e
      | .ok db3 => insertAll insertCellCount db3 (rows.flatMap toCellCountRows)

/-- `load_data_from_csv`: clear all four data tables, then repopulate from
the parsed rows.  On any constraint violation the exception propagates
before `commit`, so the error value carries no partially-updated store. -/
def loadCSV (db : DB) (rows : List CsvRow) : Except LoadErr DB :=
  loadInto (clearTables db) rows

/-! ## The Aggregator (`part2_data_overview`) -/

/-- A row of the Part-2 SQL query
(`cell_counts JOIN cell_populations ORDER BY sample_id, population_id`). -/
structure QRow where
  sample : String
  population : String
  count : Int
  deriving DecidableEq, Repr

/-- The unsorted join underlying the Part-2 query. -/
def part2Join (db : DB) : List QRow :=
  db.cell_counts.flatMap fun cc =>
    (db.cell_populations.filter fun cp => decide (cp.population_id = cc.population_id)).map
      fun cp => ⟨cc.sample_id, cp.population_id, cc.count⟩

/-- Lexicographic comparison of character lists by code point (the BINARY
collation SQLite sorts TEXT keys by, restricted to ASCII data). -/
def charListLt : List Char → List Char → Bool
  | [], [] => false
  | [], _ :: _ => true
  | _ :: _, [] => false
  | a :: as, b :: bs =>
    if a.toNat < b.toNat then true
    else if b.toNat < a.toNat then false
    else charListLt as bs

/-- Strict ordering of TEXT values under the BINARY collation. -/
def strLt (a b : String) : Bool :=
  charListLt a.data b.data

/-- The `ORDER BY cc.sample_id, cp.population_id` ordering. -/
def part2Rel (a b : QRow) : Prop :=
  strLt a.sample b.sample = true ∨
    (a.sample = b.sample ∧ (strLt a.population b.population = true ∨ a.population = b.population))

instance : DecidableRel part2Rel := fun a b =>
  inferInstanceAs (Decidable (strLt a.sample b.sample = true ∨
    (a.sample = b.sample ∧ (strLt a.population b.population = true ∨ a.population = b.population))))

/-- The rows returned by the Part-2 query, in `ORDER BY` order. -/
def part2Rows (db : DB) : List QRow :=
  List.insertionSort part2Rel (part2Join db)

/-- `df.groupby('sample')['count'].sum()` of the Part-2 frame, for one
sample value. -/
def sampleTotal (db : DB) (s : String) : Int :=
  (((part2Rows db).filter fun r => decide (r.sample = s)).map (·.count)).sum

/-- A row of the Part-2 overview result.  `percentage = none` models the
non-finite float produced by a division by a zero total (`NaN` for `0/0`). -/
structure OverviewRow where
  sample : String
  total_count : Int
  population : String
  count : Int
  percentage : Option ℚ
  deriving DecidableEq, Repr

/-- `part2_data_overview`: merge the per-sample totals back onto the query
rows and compute `percentage = count / total_count * 100`. -/
def part2 (db : DB) : List OverviewRow :=
  (part2Rows db).map fun r =>
    ⟨r.sample, sampleTotal db r.sample, r.population, r.count,
      if sampleTotal db r.sample = 0 then none
      else some ((r.count : ℚ) / (sampleTotal db r.sample : ℚ) * 100)⟩

/-- The overview rows of one sample (the rows a consumer reads back for
that sample). -/
def overviewFor (db : DB) (s : String) : List OverviewRow :=
  (part2 db).filter fun r => decide (r.sample = s)

/-! ## The Comparator (`part3_statistical_analysis`) -/

/-- A row of the Part-3 cohort query (melanoma / miraclib / PBMC /
non-NULL response, joined down to cell counts). -/
structure CRow where
  subject_id : String
  response : Option String
  sample_id : String
  population_id : String
  count : Int
  time_from_treatment_start : Int
  deriving DecidableEq, Repr

/-- The Part-3 cohort query. -/
def cohortRows (db : DB) : List CRow :=
  db.subjects.flatMap fun s =>
    if s.condition = "melanoma" ∧ s.treatment = "miraclib" ∧ s.response ≠ none then
      (db.samples.filter fun sa =>
          decide (sa.subject_id = s.subject_id ∧ sa.sample_type = "PBMC")).flatMap
        fun sa => (db.cell_counts.filter fun cc => decide (cc.sample_id = sa.sample_id)).map
          fun cc => ⟨s.subject_id, s.response, sa.sample_id, cc.population_id, cc.count,
            sa.time_from_treatment_start⟩
    else []

/-- Per-sample total over the cohort frame. -/
def cohortTotal (db : DB) (sid : String) : Int :=
  (((cohortRows db).filter fun r => decide (r.sample_id = sid)).map (·.count)).sum

/-- A cohort row annotated with its sample total and percentage. -/
structure ARow where
  subject_id : String
  response : Option String
  sample_id : String
  population_id : String
  count : Int
  time_from_treatment_start : Int
  total_count : Int
  percentage : Option ℚ
  deriving DecidableEq, Repr

/-- The merged/annotated cohort frame of Part 3. -/
def annRows (db : DB) : List ARow :=
  (cohortRows db).map fun r =>
    ⟨r.subject_id, r.response, r.sample_id, r.population_id, r.count,
      r.time_from_treatment_start, cohortTotal db r.sample_id,
      if cohortTotal db r.sample_id = 0 then none
      else some ((r.count : ℚ) / (cohortTotal db r.sample_id : ℚ) * 100)⟩

/-- `df['population_id'].unique()` over the cohort frame. -/
def popsOf (db : DB) : List String :=
  uniqueFirst ((annRows db).map (·.population_id))

/-- The responder rows of one population within the cohort frame. -/
def respRows (db : DB) (pop : String) : List ARow :=
  (annRows db).filter fun r => decide (r.population_id = pop ∧ r.response = some "yes")

/-- The non-responder rows of one population within the cohort frame. -/
def nonRespRows (db : DB) (pop : String) : List ARow :=
  (annRows db).filter fun r => decide (r.population_id = pop ∧ r.response = some "no")

/-- The responder percentage series passed to the statistical test. -/
def respPerc (db : DB) (pop : String) : List (Option ℚ) :=
  (respRows db pop).map (·.percentage)

/-- The non-responder percentage series passed to the statistical test. -/
def nonRespPerc (db : DB) (pop : String) : List (Option ℚ) :=
  (nonRespRows db pop).map (·.percentage)

/-- pandas `Series.mean` (NaN entries skipped; NaN on an empty series). -/
def seriesMean (l : List (Option ℚ)) : Option ℚ :=
  let v := l.filterMap id
  if v.length = 0 then none else some (v.sum / (v.length : ℚ))

/-- Sample variance with `ddof = 1` over the non-NaN entries. -/
def seriesVar (l : List (Option ℚ)) : ℚ :=
  let v := l.filterMap id
  ((v.map fun x => (x - v.sum / (v.length : ℚ)) ^ 2).sum) / ((v.length : ℚ) - 1)

/-- pandas `Series.std` (`ddof = 1`): NaN when fewer than two non-NaN
entries, else the square root of the sample variance. -/
noncomputable def seriesStd (l : List (Option ℚ)) : Option ℝ :=
  if (l.filterMap id).length ≤ 1 then none else some (Real.sqrt ((seriesVar l : ℚ) : ℝ))

/-- The per-population record stored in `statistical_results`.
`mann_whitney_u` and `p_value` come from the library routine; float-valued
statistics live in `ℝ`. -/
structure StatEntry where
  responders_mean : Option ℚ
  responders_std : Option ℝ
  non_responders_mean : Option ℚ
  non_responders_std : Option ℝ
  mann_whitney_u : ℝ
  p_value : ℝ
  effect_size : ℝ
  significant : Prop
  n_responders : ℕ
  n_non_responders : ℕ

/-- One `statistical_results[pop]` entry: the library rank-sum routine
`mwu` yields `(statistic, p_value)`; `ppf` is the standard-normal inverse
CDF; `effect_size = |ppf (p / 2)| / sqrt (n_responders + n_non_responders)`
exactly as in the source. -/
noncomputable def mkEntry (mwu : List (Option ℚ) → List (Option ℚ) → ℝ × ℝ)
    (ppf : ℝ → ℝ) (resp non : List (Option ℚ)) : StatEntry :=
  { responders_mean := seriesMean resp
    responders_std := seriesStd resp
    non_responders_mean := seriesMean non
    non_responders_std := seriesStd non
    mann_whitney_u := (mwu resp non).1
    p_value := (mwu resp non).2
    effect_size := |ppf ((mwu resp non).2 / 2)| / Real.sqrt ((resp.length + non.length : ℕ) : ℝ)
    significant := (mwu resp non).2 < 0.05
    n_responders := resp.length
    n_non_responders := non.length }

/-- The `statistical_results` mapping of Part 3: one entry per population
of the cohort frame whose responder and non-responder series are both
non-empty; populations failing that test are skipped. -/
noncomputable def part3Results (mwu : List (Option ℚ) → List (Option ℚ) → ℝ × ℝ)
    (ppf : ℝ → ℝ) (db : DB) : List (String × StatEntry) :=
  (popsOf db).filterMap fun pop =>
    if 0 < (respRows db pop).length ∧ 0 < (nonRespRows db pop).length then
      some (pop, mkEntry mwu ppf (respPerc db pop) (nonRespPerc db pop))
    else none

/-- A plot-ready record of Part 3. -/
structure PlotRow where
  population : String
  response : String
  percentage : Option ℚ
  total_count : Int
  deriving DecidableEq, Repr

/-- The `plot_data` records of Part 3, appended only for populations whose
two groups are both non-empty. -/
def part3Plot (db : DB) : List PlotRow :=
  (popsOf db).flatMap fun pop =>
    if 0 < (respRows db pop).length ∧ 0 < (nonRespRows db pop).length then
      (respRows db pop).map (fun r => ⟨pop, "Responder", r.percentage, r.total_count⟩) ++
        (nonRespRows db pop).map (fun r => ⟨pop, "Non-Responder", r.percentage, r.total_count⟩)
    else []

/-- `part3_statistical_analysis` (the figure is presentation-only and not
modelled): on an empty cohort it returns empty structures before any
computation; otherwise the annotated frame, the statistical results and
the plot records. -/
noncomputable def part3 (mwu : List (Option ℚ) → List (Option ℚ) → ℝ × ℝ)
    (ppf : ℝ → ℝ) (db : DB) : List ARow × List (String × StatEntry) × List PlotRow :=
  if cohortRows db = [] then ([], [], [])
  else (annRows db, part3Results mwu ppf db, part3Plot db)

/-! ## The Cohort Summarizer (`part4_subset_analysis`) -/

/-- A row of the Part-4 baseline query (melanoma / miraclib / PBMC /
`time_from_treatment_start = 0`). -/
structure BRow where
  project_id : Option String
  subject_id : String
  response : Option String
  sex : Option String
  sample_id : String
  deriving DecidableEq, Repr

/-- The Part-4 baseline query. -/
def baselineRows (db : DB) : List BRow :=
  db.subjects.flatMap fun s =>
    if s.condition = "melanoma" ∧ s.treatment = "miraclib" then
      (db.samples.filter fun sa =>
          decide (sa.subject_id = s.subject_id ∧ sa.sample_type = "PBMC" ∧
            sa.time_from_treatment_start = 0)).map
        fun sa => ⟨s.project_id, s.subject_id, s.response, s.sex, sa.sample_id⟩
    else []

/-- pandas `Series.value_counts().to_dict()`: a finite mapping from each
distinct non-NaN value to its number of occurrences (the sort-by-count
presentation order of `value_counts` is irrelevant to dictionary lookup
and not modelled). -/
def valueCounts (l : List String) : List (String × ℕ) :=
  (uniqueFirst l).map fun v => (v, l.count v)

/-- Dictionary lookup in a `value_counts` result. -/
def assocLookup (m : List (String × ℕ)) (k : String) : Option ℕ :=
  match m with
  | [] => none
  | (x, v) :: m => if x = k then some v else assocLookup m k

/-- The Part-4 result dictionary. -/
structure Part4Summary where
  total_samples : ℕ
  samples_by_project : List (String × ℕ)
  responders_by_response : List (String × ℕ)
  subjects_by_gender : List (String × ℕ)
  unique_subjects : ℕ
  deriving DecidableEq, Repr

/-- `part4_subset_analysis`: `none` models the empty dictionary returned
when the baseline query matches nothing. -/
def part4 (db : DB) : Option Part4Summary :=
  if baselineRows db = [] then none
  else some
    { total_samples := (baselineRows db).length
      samples_by_project := valueCounts ((baselineRows db).filterMap (·.project_id))
      responders_by_response := valueCounts ((baselineRows db).filterMap (·.response))
      subjects_by_gender := valueCounts ((baselineRows db).filterMap (·.sex))
      unique_subjects := (uniqueFirst ((baselineRows db).map (·.subject_id))).length }

/-! ## Concrete instances used as witnesses and counterexamples -/

/-- A stand-in for the library rank-sum routine (its value is irrelevant
to the structural properties instantiated on it). -/
def mwu0 : List (Option ℚ) → List (Option ℚ) → ℝ × ℝ := fun _ _ => (0, 1)

/-- A stand-in for the standard-normal inverse CDF. -/
def ppf0 : ℝ → ℝ := fun _ => 0

/-- CSV row: responder subject `s1`, baseline PBMC sample `sa1`. -/
def csvRowYes : CsvRow :=
  ⟨"p1", "s1", "melanoma", 30, some "M", "miraclib", some "yes",
   "sa1", "PBMC", 0, 10, 0, 0, 0, 0⟩

/-- CSV row: non-responder subject `s2`, baseline PBMC sample `sa2`. -/
def csvRowNo : CsvRow :=
  ⟨"p1", "s2", "melanoma", 55, some "F", "miraclib", some "no",
   "sa2", "PBMC", 0, 20, 0, 0, 0, 0⟩

/-- A two-row input file: one responder and one non-responder. -/
def csvPair : List CsvRow := [csvRowYes, csvRowNo]

/-- The store produced by loading `csvPair` into a fresh database. -/
def dbPair : DB :=
  match loadCSV freshDB csvPair with
  | .ok d => d
  | .error _ => freshDB

/-- The `b_cell` entry of `statistical_results` on `dbPair`. -/
noncomputable def entryPair : String × StatEntry :=
  ("b_cell", mkEntry mwu0 ppf0 (respPerc dbPair "b_cell") (nonRespPerc dbPair "b_cell"))

instance : Inhabited PlotRow := ⟨⟨"", "", none, 0⟩⟩

/-- The first plot-ready record of Part 3 on `dbPair`. -/
def plotPair : PlotRow := (part3Plot dbPair).head!

/-- A one-row input whose five population counts are all zero. -/
def csvRowZero : CsvRow :=
  ⟨"p1", "s1", "melanoma", 30, some "M", "miraclib", some "yes",
   "sa0", "PBMC", 0, 0, 0, 0, 0, 0⟩

/-- Store holding a sample whose five counts are all zero. -/
def dbZero : DB :=
  match loadCSV freshDB [csvRowZero] with
  | .ok d => d
  | .error _ => freshDB

/-- The `b_cell` overview row of the all-zero sample. -/
def rowZero : OverviewRow := ⟨"sa0", 0, "b_cell", 0, none⟩

/-- Two input rows for the same subject that disagree on `age` (30 vs 40):
`drop_duplicates` keeps both seven-column combinations. -/
def csvDup : List CsvRow :=
  [⟨"p1", "s1", "melanoma", 30, some "M", "miraclib", some "yes",
    "sa1", "PBMC", 0, 5, 5, 5, 5, 5⟩,
   ⟨"p1", "s1", "melanoma", 40, some "M", "miraclib", some "yes",
    "sa2", "PBMC", 0, 6, 6, 6, 6, 6⟩]

/-- Two input rows for the same subject whose seven subject columns agree
exactly (two baseline PBMC samples of one responder). -/
def csvAgree : List CsvRow :=
  [⟨"p1", "s1", "melanoma", 30, some "M", "miraclib", some "yes",
    "sa1", "PBMC", 0, 5, 5, 5, 5, 5⟩,
   ⟨"p1", "s1", "melanoma", 30, some "M", "miraclib", some "yes",
    "sa2", "PBMC", 0, 6, 6, 6, 6, 6⟩]

/-- The store produced by loading `csvAgree`: one subject, two baseline
samples. -/
def dbAgree : DB :=
  match loadCSV freshDB csvAgree with
  | .ok d => d
  | .error _ => freshDB

/-- A four-row input file: two matching baseline subjects (`s1` responder,
`s2` non-responder), one subject of another condition, one non-baseline
sample. -/
def csvFour : List CsvRow :=
  [csvRowYes, csvRowNo,
   ⟨"p1", "s3", "lung", 45, some "M", "miraclib", some "yes",
    "sa3", "PBMC", 0, 7, 7, 7, 7, 7⟩,
   ⟨"p1", "s4", "melanoma", 50, some "F", "miraclib", none,
    "sa4", "PBMC", 14, 8, 8, 8, 8, 8⟩]

/-- The store produced by loading `csvFour`. -/
def dbFour : DB :=
  match loadCSV freshDB csvFour with
  | .ok d => d
  | .error _ => freshDB

/-- The Part-4 summary of `dbFour`. -/
def summaryFour : Part4Summary :=
  match part4 dbFour with
  | some r => r
  | none => ⟨0, [], [], [], 0⟩

/-- A store whose `projects` table holds one project. -/
def dbProj : DB :=
  { freshDB with projects := [⟨"p1", "p1", "Cytometry analysis project"⟩] }

/-- A subject row whose `response` is neither `yes`, `no` nor NULL. -/
def subjMaybe : SubjectRow :=
  ⟨"s1", some "p1", "melanoma", 40, some "M", "miraclib", some "maybe"⟩

/-- A subject row whose non-NULL `sex` is outside `{M, F}`. -/
def subjBadSex : SubjectRow :=
  ⟨"s2", some "p1", "melanoma", 40, some "X", "miraclib", some "yes"⟩

/-- A subject row whose `sex` is NULL. -/
def subjNullSex : SubjectRow :=
  ⟨"s3", some "p1", "melanoma", 40, none, "miraclib", some "yes"⟩

/-- A cell-count row whose `sample_id` matches no sample. -/
def orphanCount : CellCountRow := ⟨"sX", "b_cell", 5⟩

/-! ## List-helper lemmas -/

theorem mem_uniqueFirstAux {α : Type} [DecidableEq α] (a : α) :
    ∀ (l seen : List α), a ∈ uniqueFirstAux seen l ↔ a ∈ l ∧ a ∉ seen := by
  intro l
  induction l with
  | nil => intro seen; simp [uniqueFirstAux]
  | cons b l ih =>
    intro seen
    by_cases hb : b ∈ seen
    · simp only [uniqueFirstAux, if_pos hb, ih, List.mem_cons]
      constructor
      · rintro ⟨h1, h2⟩; exact ⟨Or.inr h1, h2⟩
      · rintro ⟨h1 | h1, h2⟩
        · exact absurd (h1 ▸ hb) h2
        · exact ⟨h1, h2⟩
    · simp only [uniqueFirstAux, if_neg hb, List.mem_cons, ih]
      constructor
      · rintro (rfl | ⟨h1, h2⟩)
        · exact ⟨Or.inl rfl, hb⟩
        · refine ⟨Or.inr h1, fun hc => h2 (Or.inr hc)⟩
      · rintro ⟨rfl | h1, h2⟩
        · exact Or.inl rfl
        · by_cases hab : a = b
          · exact Or.inl hab
          · exact Or.inr ⟨h1, fun hc => h2 (by rcases hc with rfl | hc; exact absurd rfl hab; exact hc)⟩

theorem mem_uniqueFirst {α : Type} [DecidableEq α] {a : α} {l : List α} :
    a ∈ uniqueFirst l ↔ a ∈ l := by
  simp [uniqueFirst, mem_uniqueFirstAux]

theorem nodup_uniqueFirstAux {α : Type} [DecidableEq α] :
    ∀ (l seen : List α), (∀ x ∈ seen, x ∉ uniqueFirstAux seen l) ∧
      (uniqueFirstAux seen l).Nodup := by
  intro l
  induction l with
  | nil => intro seen; simp [uniqueFirstAux]
  | cons b l ih =>
    intro seen
    by_cases hb : b ∈ seen
    · simpa [uniqueFirstAux, if_pos hb] using ih seen
    · have ih' := ih (b :: seen)
      simp only [uniqueFirstAux, if_neg hb]
      constructor
      · intro x hx hmem
        rcases List.mem_cons.mp hmem with rfl | hmem
        · exact hb hx
        · exact ih'.1 x (List.mem_cons_of_mem _ hx) hmem
      · refine List.nodup_cons.mpr ⟨ih'.1 b (List.mem_cons_self _ _), ih'.2⟩

theorem nodup_uniqueFirst {α : Type} [DecidableEq α] (l : List α) :
    (uniqueFirst l).Nodup :=
  (nodup_uniqueFirstAux l []).2

/-! ## Loader lemmas -/

theorem insertProject_ok {db db' : DB} {p : ProjectRow}
    (h : insertProject db p = .ok db') :
    db' = { db with projects := db.projects ++ [p] } := by
  unfold insertProject at h
  split at h
  · simp at h
  · simpa using h.symm

theorem insertSubject_ok {db db' : DB} {s : SubjectRow}
    (h : insertSubject db s = .ok db') :
    db' = { db with subjects := db.subjects ++ [s] } ∧
      ∀ t ∈ db.subjects, t.subject_id ≠ s.subject_id := by
  unfold insertSubject at h
  split at h
  · simp at h
  next hdup =>
    split at h
    · simp at h
    · split at h
      · simp at h
      · split at h
        · simp at h
        · refine ⟨by simpa using h.symm, fun t ht => ?_⟩
          intro hid
          exact hdup (List.any_eq_true.mpr ⟨t, ht, by simpa using hid⟩)

theorem insertSample_ok {db db' : DB} {s : SampleRow}
    (h : insertSample db s = .ok db') :
    db' = { db with samples := db.samples ++ [s] } := by
  unfold insertSample at h
  split at h
  · simp at h
  · split at h
    · simp at h
    · simpa using h.symm

theorem insertCellCount_ok {db db' : DB} {c : CellCountRow}
    (h : insertCellCount db c = .ok db') :
    db' = { db with cell_counts := db.cell_counts ++ [c] } := by
  unfold insertCellCount at h
  split at h
  · simp at h
  · split at h
    · simp at h
    · split at h
      · simp at h
      · simpa using h.symm

theorem insertAll_project_ok :
    ∀ {l : List ProjectRow} {db db' : DB},
      insertAll insertProject db l = .ok db' →
      db'.projects = db.projects ++ l ∧ db'.subjects = db.subjects ∧
        db'.samples = db.samples ∧ db'.cell_populations = db.cell_populations ∧
        db'.cell_counts = db.cell_counts := by
  intro l
  induction l with
  | nil =>
    intro db db' h
    simp only [insertAll] at h
    cases h
    simp
  | cons r l ih =>
    intro db db' h
    simp only [insertAll] at h
    split at h
    · simp at h
    next db1 hin =>
      obtain rfl := insertProject_ok hin
      simpa [List.append_assoc] using ih h

theorem insertAll_subject_ok :
    ∀ {l : List SubjectRow} {db db' : DB},
      insertAll insertSubject db l = .ok db' →
      db'.subjects = db.subjects ++ l ∧ db'.projects = db.projects ∧
        db'.samples = db.samples ∧ db'.cell_populations = db.cell_populations ∧
        db'.cell_counts = db.cell_counts := by
  intro l
  induction l with
  | nil =>
    intro db db' h
    simp only [insertAll] at h
    cases h
    simp
  | cons r l ih =>
    intro db db' h
    simp only [insertAll] at h
    split at h
    · simp at h
    next db1 hin =>
      obtain ⟨rfl, -⟩ := insertSubject_ok hin
      simpa [List.append_assoc] using ih h

theorem insertAll_sample_ok :
    ∀ {l : List SampleRow} {db db' : DB},
      insertAll insertSample db l = .ok db' →
      db'.samples = db.samples ++ l ∧ db'.projects = db.projects ∧
        db'.subjects = db.subjects ∧ db'.cell_populations = db.cell_populations ∧
        db'.cell_counts = db.cell_counts := by
  intro l
  induction l with
  | nil =>
    intro db db' h
    simp only [insertAll] at h
    cases h
    simp
  | cons r l ih =>
    intro db db' h
    simp only [insertAll] at h
    split at h
    · simp at h
    next db1 hin =>
      obtain rfl := insertSample_ok hin
      simpa [List.append_assoc] using ih h

theorem insertAll_cellcount_ok :
    ∀ {l : List CellCountRow} {db db' : DB},
      insertAll insertCellCount db l = .ok db' →
      db'.cell_counts = db.cell_counts ++ l ∧ db'.projects = db.projects ∧
        db'.subjects = db.subjects ∧ db'.samples = db.samples ∧
        db'.cell_populations = db.cell_populations := by
  intro l
  induction l with
  | nil =>
    intro db db' h
    simp only [insertAll] at h
    cases h
    simp
  | cons r l ih =>
    intro db db' h
    simp only [insertAll] at h
    split at h
    · simp at h
    next db1 hin =>
      obtain rfl := insertCellCount_ok hin
      simpa [List.append_assoc] using ih h

/-- A successful subjects insert run implies the inserted subject ids were
pairwise distinct and fresh with respect to the table's prior contents. -/
theorem insertAll_subject_nodup :
    ∀ {l : List SubjectRow} {db db' : DB},
      insertAll insertSubject db l = .ok db' →
      (l.map (·.subject_id)).Nodup ∧
        ∀ r ∈ l, ∀ t ∈ db.subjects, t.subject_id ≠ r.subject_id := by
  intro l
  induction l with
  | nil => intro db db' _; simp
  | cons r l ih =>
    intro db db' h
    simp only [insertAll] at h
    split at h
    · simp at h
    next db1 hin =>
      obtain ⟨rfl, hfresh⟩ := insertSubject_ok hin
      obtain ⟨hnodup, hrest⟩ := ih h
      refine ⟨List.nodup_cons.mpr ⟨?_, hnodup⟩, ?_⟩
      · intro hmem
        obtain ⟨r', hr', hid⟩ := List.mem_map.mp hmem
        exact hrest r' hr' r (by simp) hid.symm
      · intro r' hr' t ht
        rcases List.mem_cons.mp hr' with rfl | hr'
        · exact hfresh t ht
        · exact hrest r' hr' t (List.mem_append_left _ ht)

theorem length_flatMap_cellCounts (rows : List CsvRow) :
    (rows.flatMap toCellCountRows).length = 5 * rows.length := by
  induction rows with
  | nil => rfl
  | cons r rows ih => simp [toCellCountRows, ih, Nat.mul_add, Nat.mul_succ]

/-- Table contents of a successful load: the derived frames land verbatim
in the four data tables and the `cell_populations` reference table is
untouched. -/
theorem loadCSV_ok_tables {db db' : DB} {rows : List CsvRow}
    (h : loadCSV db rows = .ok db') :
    db'.projects = projectRows rows ∧
      db'.subjects = uniqueFirst (rows.map toSubjectRow) ∧
      db'.samples = rows.map toSampleRow ∧
      db'.cell_counts = rows.flatMap toCellCountRows ∧
      db'.cell_populations = db.cell_populations ∧
      (db'.subjects.map (·.subject_id)).Nodup := by
  unfold loadCSV loadInto at h
  split at h
  · simp at h
  next db1 h1 =>
    split at h
    · simp at h
    next db2 h2 =>
      split at h
      · simp at h
      next db3 h3 =>
        obtain ⟨hp1, hs1, hsa1, hpop1, hcc1⟩ := insertAll_project_ok h1
        obtain ⟨hs2, hp2, hsa2, hpop2, hcc2⟩ := insertAll_subject_ok h2
        obtain ⟨hsa3, hp3, hs3, hpop3, hcc3⟩ := insertAll_sample_ok h3
        obtain ⟨hcc4, hp4, hs4, hsa4, hpop4⟩ := insertAll_cellcount_ok h
        obtain ⟨hnodup, -⟩ := insertAll_subject_nodup h2
        refine ⟨?_, ?_, ?_, ?_, ?_, ?_⟩
        · rw [hp4, hp3, hp2, hp1]; simp [clearTables]
        · rw [hs4, hs3, hs2, hs1]; simp [clearTables]
        · rw [hsa4, hsa3, hsa2, hsa1]; simp [clearTables]
        · rw [hcc4, hcc3, hcc2, hcc1]; simp [clearTables]
        · rw [hpop4, hpop3, hpop2, hpop1]; simp [clearTables]
        · rw [hs4, hs3, hs2, hs1]; simpa [clearTables] using hnodup

/-- A successful load fixes the cleared state the next load starts from,
so reloading the same rows reproduces exactly the same store. -/
theorem loadCSV_idem {db db' : DB} {rows : List CsvRow}
    (h : loadCSV db rows = .ok db') :
    loadCSV db' rows = .ok db' := by
  have hpop : db'.cell_populations = db.cell_populations :=
    (loadCSV_ok_tables h).2.2.2.2.1
  have hclear : clearTables db' = clearTables db := by
    simp [clearTables, hpop]
  unfold loadCSV
  rw [hclear]
  exact h

/-! ## Aggregator lemmas -/

theorem sum_map_div_mul (T : ℚ) :
    ∀ l : List Int, ((l.map fun c : Int => (c : ℚ) / T * 100).sum) = ((l.sum : ℚ)) / T * 100 := by
  intro l
  induction l with
  | nil => simp
  | cons a l ih =>
    simp only [List.map_cons, List.sum_cons, ih, Int.cast_add, add_div, add_mul]

theorem overviewFor_eq (db : DB) (s : String) :
    overviewFor db s =
      ((part2Rows db).filter fun q => decide (q.sample = s)).map fun q =>
        (⟨q.sample, sampleTotal db q.sample, q.population, q.count,
          if sampleTotal db q.sample = 0 then none
          else some ((q.count : ℚ) / (sampleTotal db q.sample : ℚ) * 100)⟩ : OverviewRow) := by
  unfold overviewFor part2
  rw [List.filter_map]
  rfl

theorem sampleTotal_eq_sum (db : DB) (s : String) :
    sampleTotal db s =
      (((part2Rows db).filter fun q => decide (q.sample = s)).map (·.count)).sum := rfl

/-! ## Comparator lemmas -/

theorem filterMap_if_keys {α β : Type} (P : α → Prop) [DecidablePred P] (g : α → β) :
    ∀ l : List α,
      (l.filterMap fun a => if P a then some (a, g a) else none).map Prod.fst =
        l.filter fun a => decide (P a) := by
  intro l
  induction l with
  | nil => rfl
  | cons a l ih =>
    by_cases h : P a
    · simp [List.filterMap_cons, h, ih]
    · simp [List.filterMap_cons, h, ih]

theorem part3Results_keys (mwu : List (Option ℚ) → List (Option ℚ) → ℝ × ℝ)
    (ppf : ℝ → ℝ) (db : DB) :
    (part3Results mwu ppf db).map Prod.fst =
      (popsOf db).filter fun pop =>
        decide (0 < (respRows db pop).length ∧ 0 < (nonRespRows db pop).length) := by
  unfold part3Results
  exact filterMap_if_keys _ _ _

theorem pop_mem_popsOf_of_respRows {db : DB} {pop : String}
    (h : respRows db pop ≠ []) : pop ∈ popsOf db := by
  obtain ⟨r, hr⟩ := List.exists_mem_of_ne_nil _ h
  obtain ⟨hra, hrp⟩ := List.mem_filter.mp hr
  have hpop : r.population_id = pop := (of_decide_eq_true hrp).1
  exact mem_uniqueFirst.mpr (hpop ▸ List.mem_map_of_mem _ hra)

/-! ## Summarizer lemmas -/

theorem assocLookup_map_pairs (f : String → ℕ) :
    ∀ (u : List String) (k : String),
      assocLookup (u.map fun v => (v, f v)) k = if k ∈ u then some (f k) else none := by
  intro u
  induction u with
  | nil => intro k; rfl
  | cons v u ih =>
    intro k
    simp only [List.map_cons, assocLookup]
    by_cases hv : v = k
    · subst hv
      simp
    · rw [if_neg hv, ih]
      by_cases hk : k ∈ u
      · rw [if_pos hk, if_pos (List.mem_cons_of_mem _ hk)]
      · rw [if_neg hk, if_neg ?_]
        intro hc
        rcases List.mem_cons.mp hc with rfl | hc
        · exact hv rfl
        · exact hk hc

theorem assocLookup_valueCounts (l : List String) (k : String) :
    assocLookup (valueCounts l) k = if k ∈ l then some (l.count k) else none := by
  unfold valueCounts
  rw [assocLookup_map_pairs]
  by_cases hk : k ∈ l
  · rw [if_pos (mem_uniqueFirst.mpr hk), if_pos hk]
  · rw [if_neg (fun h => hk (mem_uniqueFirst.mp h)), if_neg hk]

/-! ## Claims -/

/-- Claim C1: for every store state and every sample whose cell counts sum
(`total_count`) is positive, the percentages of the overview rows of that
sample sum to 100, each percentage being `count / total_count * 100`. -/
theorem c1_percentages_sum_to_100 (db : DB) (s : String)
    (hT : 0 < sampleTotal db s) :
    ((overviewFor db s).map fun r => r.percentage.getD 0).sum = 100 ∧
      ∀ r ∈ overviewFor db s,
        r.percentage = some ((r.count : ℚ) / (r.total_count : ℚ) * 100) := by
  have hTne : sampleTotal db s ≠ 0 := hT.ne'
  have hTQ : ((sampleTotal db s : ℤ) : ℚ) ≠ 0 := Int.cast_ne_zero.mpr hTne
  constructor
  · have h1 : ((overviewFor db s).map fun r => r.percentage.getD 0) =
        ((part2Rows db).filter fun q => decide (q.sample = s)).map
          fun q : QRow => (q.count : ℚ) / ((sampleTotal db s : ℤ) : ℚ) * 100 := by
      rw [overviewFor_eq, List.map_map]
      apply List.map_congr_left
      intro q hq
      have hs : q.sample = s := of_decide_eq_true (List.mem_filter.mp hq).2
      simp only [Function.comp]
      rw [hs, if_neg hTne]
      rfl
    rw [h1]
    rw [show (fun q : QRow => (q.count : ℚ) / ((sampleTotal db s : ℤ) : ℚ) * 100) =
          (fun c : Int => (c : ℚ) / ((sampleTotal db s : ℤ) : ℚ) * 100) ∘
            (fun q : QRow => q.count) from rfl,
      ← List.map_map, sum_map_div_mul, ← sampleTotal_eq_sum, div_self hTQ, one_mul]
  · intro r hr
    rw [overviewFor_eq] at hr
    obtain ⟨q, hq, rfl⟩ := List.mem_map.mp hr
    have hs : q.sample = s := of_decide_eq_true (List.mem_filter.mp hq).2
    simp only
    rw [hs, if_neg hTne]

/-- Claim C1 witness: on the loaded two-row store, sample `sa1` has a
positive total and its overview percentages sum to 100. -/
theorem c1_witness :
    0 < sampleTotal dbPair "sa1" ∧
      ((overviewFor dbPair "sa1").map fun r => r.percentage.getD 0).sum = 100 := by
  have h : 0 < sampleTotal dbPair "sa1" := by decide
  exact ⟨h, (c1_percentages_sum_to_100 dbPair "sa1" h).1⟩

/-- Claim C2: a successful load of `N` rows yields exactly `N` sample rows
and `5 N` cell-count rows, and reloading the same rows returns the very
same store (so every table keeps its row count). -/
theorem c2_roundtrip (db : DB) (rows : List CsvRow) (db' : DB)
    (h : loadCSV db rows = .ok db') :
    db'.samples.length = rows.length ∧
      db'.cell_counts.length = 5 * rows.length ∧
      loadCSV db' rows = .ok db' := by
  obtain ⟨-, -, hsa, hcc, -, -⟩ := loadCSV_ok_tables h
  refine ⟨?_, ?_, loadCSV_idem h⟩
  · rw [hsa, List.length_map]
  · rw [hcc, length_flatMap_cellCounts]

/-- Claim C2 witness: loading the concrete two-row file succeeds, produces
2 sample rows and 10 cell-count rows, and reloading reproduces the store. -/
theorem c2_roundtrip_witness :
    loadCSV freshDB csvPair = .ok dbPair ∧ dbPair.samples.length = 2 ∧
      dbPair.cell_counts.length = 10 ∧ loadCSV dbPair csvPair = .ok dbPair := by
  have h : loadCSV freshDB csvPair = .ok dbPair := rfl
  have hc := c2_roundtrip freshDB csvPair dbPair h
  exact ⟨h, hc.1, hc.2.1, hc.2.2⟩

/-- Claim C6: a sample all of whose stored cell counts are zero yields
overview rows with `total_count = 0` and the NaN sentinel (`none`) as
percentage — the computation is total, it cannot crash. -/
theorem c6_zero_total (db : DB) (s : String)
    (hz : ∀ c ∈ db.cell_counts, c.sample_id = s → c.count = 0) :
    ∀ r ∈ overviewFor db s, r.total_count = 0 ∧ r.percentage = none := by
  have hq0 : ∀ q ∈ part2Rows db, q.sample = s → q.count = 0 := by
    intro q hq hs
    have hqj : q ∈ part2Join db :=
      ((List.perm_insertionSort part2Rel (part2Join db)).mem_iff).mp hq
    obtain ⟨cc, hcc, hmem2⟩ := List.mem_flatMap.mp hqj
    obtain ⟨cp, hcp, rfl⟩ := List.mem_map.mp hmem2
    exact hz cc hcc hs
  have hT : sampleTotal db s = 0 := by
    rw [sampleTotal_eq_sum]
    apply List.sum_eq_zero
    intro x hx
    obtain ⟨q, hq, rfl⟩ := List.mem_map.mp hx
    obtain ⟨hq1, hq2⟩ := List.mem_filter.mp hq
    exact hq0 q hq1 (of_decide_eq_true hq2)
  intro r hr
  rw [overviewFor_eq] at hr
  obtain ⟨q, hq, rfl⟩ := List.mem_map.mp hr
  have hs : q.sample = s := of_decide_eq_true (List.mem_filter.mp hq).2
  refine ⟨?_, ?_⟩ <;> simp [hs, hT]

/-- Claim C6 witness: the all-zero sample `sa0` appears in the overview
with a zero total and the `none` sentinel. -/
theorem c6_witness :
    rowZero ∈ overviewFor dbZero "sa0" ∧ rowZero.total_count = 0 ∧
      rowZero.percentage = none := by
  have hz : ∀ c ∈ dbZero.cell_counts, c.sample_id = "sa0" → c.count = 0 := by decide
  have hm : rowZero ∈ overviewFor dbZero "sa0" := by decide
  have hc := c6_zero_total dbZero "sa0" hz rowZero hm
  exact ⟨hm, hc.1, hc.2⟩

/-- Claim C8: when the relevant queries match nothing, the Aggregator
returns an empty table, the Comparator returns empty structures, and the
Summarizer returns the empty dictionary — never an error. -/
theorem c8_empty (mwu : List (Option ℚ) → List (Option ℚ) → ℝ × ℝ)
    (ppf : ℝ → ℝ) (db : DB)
    (h2 : part2Join db = []) (h3 : cohortRows db = []) (h4 : baselineRows db = []) :
    part2 db = [] ∧ part3 mwu ppf db = ([], [], []) ∧ part4 db = none := by
  refine ⟨?_, ?_, ?_⟩
  · unfold part2 part2Rows
    rw [h2]
    rfl
  · unfold part3
    rw [if_pos h3]
  · unfold part4
    rw [if_pos h4]

/-- Claim C8 witness: on a freshly created store all three analyses return
their empty values. -/
theorem c8_witness :
    part2 freshDB = [] ∧ part3 mwu0 ppf0 freshDB = ([], [], []) ∧
      part4 freshDB = none :=
  c8_empty mwu0 ppf0 freshDB rfl rfl rfl

/-- Claim C9: inserting a `cell_counts` row whose `sample_id` matches no
sample fails with a constraint violation (foreign keys are enforced on the
connection); the error value carries no updated store. -/
theorem c9_fk_enforced (db : DB) (c : CellCountRow)
    (h : ∀ sampleRow ∈ db.samples, sampleRow.sample_id ≠ c.sample_id) :
    insertCellCount db c = .error .constraintViolation := by
  have hfk : fkOk (some c.sample_id) (db.samples.map (·.sample_id)) = false := by
    simp only [fkOk, decide_eq_false_iff_not]
    intro hm
    obtain ⟨sR, hsR, hid⟩ := List.mem_map.mp hm
    exact h sR hsR hid
  unfold insertCellCount
  by_cases hpk : db.cell_counts.any fun d =>
    decide (d.sample_id = c.sample_id ∧ d.population_id = c.population_id)
  · rw [if_pos hpk]
  · rw [if_neg hpk, if_pos (by simp [hfk])]

/-- Claim C9 witness: on a fresh store (no samples) inserting the orphan
cell-count row is rejected. -/
theorem c9_witness :
    freshDB.samples = [] ∧
      insertCellCount freshDB orphanCount = .error .constraintViolation := by
  refine ⟨rfl, c9_fk_enforced freshDB orphanCount ?_⟩
  intro sR hsR
  simp [freshDB] at hsR

/-- Claim C10 (code bug evidence): the store accepts a subject whose
`response` is `'maybe'` — outside `{yes, no, NULL}` — because the literal
`NULL` in `CHECK (response IN ('yes','no',NULL))` makes the check evaluate
to SQL NULL (a pass) for every value; it likewise accepts a NULL `sex`,
while a non-NULL `sex` outside `{M, F}` is properly rejected. -/
theorem c10_response_check_vacuous :
    insertSubject dbProj subjMaybe = .ok { dbProj with subjects := [subjMaybe] } ∧
      subjMaybe.response ≠ some "yes" ∧ subjMaybe.response ≠ some "no" ∧
      subjMaybe.response ≠ none ∧
      insertSubject dbProj subjBadSex = .error .constraintViolation ∧
      insertSubject dbProj subjNullSex = .ok { dbProj with subjects := [subjNullSex] } :=
  ⟨rfl, by decide, by decide, by decide, rfl, rfl⟩

/-- Claim C3: every entry of the Comparator's statistical results records
`effect_size = |ppf (p_value / 2)| / sqrt (n_responders + n_non_responders)`
with `ppf` the standard-normal inverse CDF; in particular a 3-vs-3
comparison records `|ppf (p / 2)| / sqrt 6`. -/
theorem c3_effect_size_formula (mwu : List (Option ℚ) → List (Option ℚ) → ℝ × ℝ)
    (ppf : ℝ → ℝ) (db : DB) (e : String × StatEntry)
    (he : e ∈ part3Results mwu ppf db) :
    e.2.effect_size = |ppf (e.2.p_value / 2)| /
        Real.sqrt ((e.2.n_responders + e.2.n_non_responders : ℕ) : ℝ) ∧
      (e.2.n_responders = 3 → e.2.n_non_responders = 3 →
        e.2.effect_size = |ppf (e.2.p_value / 2)| / Real.sqrt 6) := by
  obtain ⟨pop, hpop, heq⟩ := List.mem_filterMap.mp he
  by_cases hc : 0 < (respRows db pop).length ∧ 0 < (nonRespRows db pop).length
  · rw [if_pos hc] at heq
    obtain rfl := Option.some_inj.mp heq
    refine ⟨rfl, ?_⟩
    intro h3 h3'
    have h3n : (respPerc db pop).length = 3 := h3
    have h3m : (nonRespPerc db pop).length = 3 := h3'
    show |ppf ((mwu (respPerc db pop) (nonRespPerc db pop)).2 / 2)| /
        Real.sqrt (((respPerc db pop).length + (nonRespPerc db pop).length : ℕ) : ℝ) =
      |ppf ((mwu (respPerc db pop) (nonRespPerc db pop)).2 / 2)| / Real.sqrt 6
    rw [h3n, h3m]
    norm_num
  · rw [if_neg hc] at heq
    simp at heq

/-- Claim C3 witness: on the loaded two-row store the `b_cell` entry obeys
the effect-size formula. -/
theorem c3_witness :
    entryPair ∈ part3Results mwu0 ppf0 dbPair ∧
      entryPair.2.effect_size = |ppf0 (entryPair.2.p_value / 2)| /
        Real.sqrt ((entryPair.2.n_responders + entryPair.2.n_non_responders : ℕ) : ℝ) := by
  have hmem : entryPair ∈ part3Results mwu0 ppf0 dbPair := by
    apply List.mem_filterMap.mpr
    refine ⟨"b_cell", by decide, ?_⟩
    rw [if_pos (by decide)]
    rfl
  exact ⟨hmem, (c3_effect_size_formula mwu0 ppf0 dbPair entryPair hmem).1⟩

/-- Claim C4: the statistical-results keys are pairwise distinct;
a population appears among them exactly when both its responder and
non-responder groups are non-empty within the cohort; and every plot-ready
record belongs to a population with both groups non-empty. -/
theorem c4_grouping (mwu : List (Option ℚ) → List (Option ℚ) → ℝ × ℝ)
    (ppf : ℝ → ℝ) (db : DB) (pop : String) :
    ((part3Results mwu ppf db).map Prod.fst).Nodup ∧
      (pop ∈ (part3Results mwu ppf db).map Prod.fst ↔
        respRows db pop ≠ [] ∧ nonRespRows db pop ≠ []) ∧
      ∀ pr ∈ part3Plot db,
        respRows db pr.population ≠ [] ∧ nonRespRows db pr.population ≠ [] := by
  refine ⟨?_, ?_, ?_⟩
  · rw [part3Results_keys]
    exact (nodup_uniqueFirst _).filter _
  · rw [part3Results_keys, List.mem_filter]
    constructor
    · rintro ⟨-, hcond⟩
      obtain ⟨h1, h2⟩ := of_decide_eq_true hcond
      exact ⟨List.length_pos.mp h1, List.length_pos.mp h2⟩
    · rintro ⟨h1, h2⟩
      refine ⟨pop_mem_popsOf_of_respRows h1, decide_eq_true ?_⟩
      exact ⟨List.length_pos.mpr h1, List.length_pos.mpr h2⟩
  · intro pr hpr
    unfold part3Plot at hpr
    obtain ⟨p, hp, hmem⟩ := List.mem_flatMap.mp hpr
    by_cases hc : 0 < (respRows db p).length ∧ 0 < (nonRespRows db p).length
    · rw [if_pos hc] at hmem
      have hppop : pr.population = p := by
        rcases List.mem_append.mp hmem with hm | hm
        · obtain ⟨r, hr, rfl⟩ := List.mem_map.mp hm
          rfl
        · obtain ⟨r, hr, rfl⟩ := List.mem_map.mp hm
          rfl
      rw [hppop]
      exact ⟨List.length_pos.mp hc.1, List.length_pos.mp hc.2⟩
    · rw [if_neg hc] at hmem
      simp at hmem

/-- Claim C4 witness: on the loaded two-row store, `b_cell` (one responder
and one non-responder record) is a result key, and the concrete plot
record belongs to a population with both groups non-empty. -/
theorem c4_witness :
    "b_cell" ∈ (part3Results mwu0 ppf0 dbPair).map Prod.fst ∧
      respRows dbPair plotPair.population ≠ [] ∧
      nonRespRows dbPair plotPair.population ≠ [] := by
  have hc := c4_grouping mwu0 ppf0 dbPair "b_cell"
  refine ⟨hc.2.1.mpr ⟨by decide, by decide⟩,
    hc.2.2 plotPair (List.head!_mem_self (by decide))⟩

/-- Claim C5 (amended): the Part-4 summary reports the matching row count,
the distinct-subject count, and per-value occurrence counts of the
project, response and sex columns over the matching rows — row counts, not
distinct-subject counts, for response and sex. -/
theorem c5_summary_fields (db : DB) (r4 : Part4Summary)
    (h : part4 db = some r4) :
    r4.total_samples = (baselineRows db).length ∧
      r4.unique_subjects = (uniqueFirst ((baselineRows db).map (·.subject_id))).length ∧
      (∀ v, assocLookup r4.samples_by_project v =
        if v ∈ (baselineRows db).filterMap (·.project_id) then
          some (((baselineRows db).filterMap (·.project_id)).count v) else none) ∧
      (∀ v, assocLookup r4.responders_by_response v =
        if v ∈ (baselineRows db).filterMap (·.response) then
          some (((baselineRows db).filterMap (·.response)).count v) else none) ∧
      (∀ v, assocLookup r4.subjects_by_gender v =
        if v ∈ (baselineRows db).filterMap (·.sex) then
          some (((baselineRows db).filterMap (·.sex)).count v) else none) := by
  unfold part4 at h
  split at h
  · simp at h
  · obtain rfl := Option.some_inj.mp h
    exact ⟨rfl, rfl, fun v => assocLookup_valueCounts _ _,
      fun v => assocLookup_valueCounts _ _, fun v => assocLookup_valueCounts _ _⟩

/-- Claim C5 counterexample: in the store where one subject owns two
baseline samples, the `responders_by_response` mapping reports 2 for
`yes` although only one distinct matching subject has response `yes` — the
mapping counts rows (samples), not subjects. -/
theorem c5_counterexample :
    (part4 dbAgree).map (fun r => assocLookup r.responders_by_response "yes") =
        some (some 2) ∧
      (uniqueFirst (((baselineRows dbAgree).filter fun r =>
        decide (r.response = some "yes")).map (·.subject_id))).length = 1 := by
  exact ⟨by decide, by decide⟩

/-- Claim C5 witness: for the four-row input with two matching baseline
subjects (one `yes`, one `no`), the summary reports `total_samples = 2`,
`unique_subjects = 2` and response counts `yes = 1`, `no = 1`. -/
theorem c5_witness :
    part4 dbFour = some summaryFour ∧ summaryFour.total_samples = 2 ∧
      summaryFour.unique_subjects = 2 ∧
      assocLookup summaryFour.responders_by_response "yes" = some 1 ∧
      assocLookup summaryFour.responders_by_response "no" = some 1 := by
  have h : part4 dbFour = some summaryFour := rfl
  have hc := c5_summary_fields dbFour summaryFour h
  refine ⟨h, ?_, ?_, ?_, ?_⟩
  · rw [hc.1]
    decide
  · rw [hc.2.1]
    decide
  · rw [hc.2.2.2.1 "yes"]
    decide
  · rw [hc.2.2.2.1 "no"]
    decide

/-- Claim C7 counterexample: two rows for subject `s1` disagreeing only on
`age` keep both seven-column combinations after `drop_duplicates`, so the
second `subjects` insert violates the `subject_id` primary key and the
load fails — the loader does not resolve the conflict first-seen-wins. -/
theorem c7_counterexample :
    loadCSV freshDB csvDup = .error .constraintViolation := rfl

/-- Claim C7 (amended): the loader keeps one subjects-frame row per
distinct seven-column combination; a load succeeds only if duplicated
subject values agree on all seven columns, and then the stored row for
each subject equals the one derived from its first occurrence. -/
theorem c7_subject_derivation (db : DB) (rows : List CsvRow) (db' : DB)
    (h : loadCSV db rows = .ok db') :
    (db'.subjects.map (·.subject_id)).Nodup ∧
      (∀ t ∈ db'.subjects, ∃ r ∈ rows, t = toSubjectRow r) ∧
      ∀ r ∈ rows, ∃ r0,
        rows.find? (fun x => decide (x.subject = r.subject)) = some r0 ∧
          toSubjectRow r = toSubjectRow r0 ∧ toSubjectRow r0 ∈ db'.subjects := by
  obtain ⟨-, hsub, -, -, -, hnodup⟩ := loadCSV_ok_tables h
  refine ⟨hnodup, ?_, ?_⟩
  · intro t ht
    rw [hsub] at ht
    obtain ⟨r, hr, rfl⟩ := List.mem_map.mp (mem_uniqueFirst.mp ht)
    exact ⟨r, hr, rfl⟩
  · intro r hr
    cases hfind : rows.find? (fun x => decide (x.subject = r.subject)) with
    | none =>
      exfalso
      have hnone := List.find?_eq_none.mp hfind r hr
      simp at hnone
    | some r0 =>
      have hr0mem : r0 ∈ rows := List.mem_of_find?_eq_some hfind
      have hp0 := List.find?_some hfind
      have hr0subj : r0.subject = r.subject := of_decide_eq_true hp0
      have hmem1 : toSubjectRow r ∈ db'.subjects := by
        rw [hsub]
        exact mem_uniqueFirst.mpr (List.mem_map_of_mem _ hr)
      have hmem0 : toSubjectRow r0 ∈ db'.subjects := by
        rw [hsub]
        exact mem_uniqueFirst.mpr (List.mem_map_of_mem _ hr0mem)
      have heq : toSubjectRow r = toSubjectRow r0 :=
        List.inj_on_of_nodup_map hnodup hmem1 hmem0 hr0subj.symm
      exact ⟨r0, rfl, heq, hmem0⟩

/-- Claim C7 witness: two fully-agreeing rows for one subject load
successfully into a single subjects row. -/
theorem c7_witness :
    loadCSV freshDB csvAgree = .ok dbAgree ∧
      (dbAgree.subjects.map (·.subject_id)).Nodup ∧
      dbAgree.subjects.length = 1 := by
  have h : loadCSV freshDB csvAgree = .ok dbAgree := rfl
  exact ⟨h, (c7_subject_derivation freshDB csvAgree dbAgree h).1, by decide⟩
